import Mathlib

/-!
Verification of the OptiTrade trading simulation and risk engine.

Shallow embedding of:
- EnhancedTradingEnv (RL_algorithms/algorithms_training/environment/A2C_trading_env.py):
  reset, step, _update_stats, _calculate_reward, _is_done.
- RiskManager (backend/risk_manager.py): check_trade_allowed,
  calculate_stop_loss_price, calculate_take_profit_price, check_stop_loss,
  check_take_profit, update_position.
- BacktestEngine._calculate_metrics (backend/backtest_engine.py).

Python floats are modelled as exact rationals; float literals such as 0.1,
0.7 and 0.001 are the rationals 1/10, 7/10, 1/1000.  numpy std is the
population standard deviation (ddof = 0); since its value is an irrational
square root in general, states and metrics carry the variance (the square
of the std) and theorems that need the std itself lift to the reals with
Real.sqrt.  Pandas frame lookups df.iloc[i]["Close"] are modelled as list
lookups with default 0 (in-episode indices are always in range).
-/

namespace OptiTrade

/-- np.clip for a scalar: the value forced into [lo, hi]. -/
def clip (x lo hi : ℚ) : ℚ := max lo (min x hi)

/-- Arithmetic mean of a list of rationals (0 for the empty list). -/
def listMean (xs : List ℚ) : ℚ := xs.sum / (xs.length : ℚ)

/-- Population variance (np.std squared, ddof = 0). -/
def popVar (xs : List ℚ) : ℚ :=
  ((xs.map (fun x => (x - listMean xs) ^ 2)).sum) / (xs.length : ℚ)

/-- Sample variance (ddof = 1), the square of the sample standard deviation. -/
def sampleVar (xs : List ℚ) : ℚ :=
  ((xs.map (fun x => (x - listMean xs) ^ 2)).sum) / ((xs.length : ℚ) - 1)

/-- Python list slice xs[-20:], the last 20 entries. -/
def last20 (xs : List ℚ) : List ℚ := xs.drop (xs.length - 20)

/-- One entry of EnhancedTradingEnv.trades (the dict appended in step). -/
structure TradeRec where
  step : ℕ
  price : ℚ
  position : ℚ
  size : ℚ
  commission : ℚ
  equity : ℚ
deriving DecidableEq, Repr

/-- Constructor parameters of EnhancedTradingEnv that the step logic reads:
the Close column of df, window_size, fee and initial_balance. -/
structure EnvCfg where
  prices : List ℚ
  windowSize : ℕ
  fee : ℚ
  initialBalance : ℚ
deriving DecidableEq, Repr

/-- self.max_step = len(df) - 1. -/
def maxStep (cfg : EnvCfg) : ℕ := cfg.prices.length - 1

/-- The mutable fields of EnhancedTradingEnv that step reads and writes.
self.volatility is np.std of the trailing return window; the field
volatilitySq holds its square (the population variance), see the file
header. -/
structure EnvState where
  stepIdx : ℕ
  position : ℚ
  positionSize : ℚ
  equity : ℚ
  entryPrice : ℚ
  trades : List TradeRec
  maxDrawdown : ℚ
  peakEquity : ℚ
  returns : List ℚ
  volatilitySq : ℚ
deriving DecidableEq, Repr

/-- EnhancedTradingEnv.reset: the state part (the returned observation is
out of scope for the claims). -/
def resetState (cfg : EnvCfg) : EnvState :=
  { stepIdx := cfg.windowSize
    position := 0
    positionSize := 1/10
    equity := cfg.initialBalance
    entryPrice := 0
    trades := []
    maxDrawdown := 0
    peakEquity := cfg.initialBalance
    returns := []
    volatilitySq := 0 }

/-- price_change_pct = (close[t] - close[t-1]) / close[t-1] at the cursor. -/
def stepPct (cfg : EnvCfg) (s : EnvState) : ℚ :=
  let prevPrice := cfg.prices.getD (s.stepIdx - 1) 0
  let currentPrice := cfg.prices.getD s.stepIdx 0
  (currentPrice - prevPrice) / prevPrice

/-- Tail of EnhancedTradingEnv.step after the optional trade block:
_update_stats(old_equity), _calculate_reward (which reads the
POST-trade self.position and self.position_size), the cursor advance and
_is_done.  Parameters pos, size, entry, trades are the post-trade values,
equity2 the equity after P&L and commission, oldEquity the equity captured
before the P&L update. -/
def finishStep (cfg : EnvCfg) (s : EnvState) (pos size entry : ℚ)
    (trades : List TradeRec) (pct oldEquity commission equity2 : ℚ) :
    EnvState × ℚ × Bool :=
  let peak := if equity2 > s.peakEquity then equity2 else s.peakEquity
  let currentDrawdown := (peak - equity2) / peak
  let maxDD := max s.maxDrawdown currentDrawdown
  let currentReturn := if oldEquity > 0 then (equity2 - oldEquity) / oldEquity else 0
  let rets := s.returns ++ [currentReturn]
  let volSq := if 20 ≤ rets.length then popVar (last20 rets) else s.volatilitySq
  let reward := (pos * size * pct + (-commission) / cfg.initialBalance) * 100
  let idx := s.stepIdx + 1
  let done := decide (equity2 ≤ cfg.initialBalance * (7/10)) ||
      decide (maxStep cfg ≤ idx) || decide (1/2 < maxDD)
  (⟨idx, pos, size, equity2, entry, trades, maxDD, peak, rets, volSq⟩, reward, done)

/-- EnhancedTradingEnv.step on an action (target_position, target_size):
returns the new state, the reward and the done flag. -/
def stepFull (cfg : EnvCfg) (s : EnvState) (a : ℚ × ℚ) : EnvState × ℚ × Bool :=
  let targetPosition := clip a.1 (-1) 1
  let targetSize := clip a.2 (1/10) 1
  let currentPrice := cfg.prices.getD s.stepIdx 0
  let pct := stepPct cfg s
  let equity1 := s.equity + s.position * s.positionSize * pct * s.equity
  if 1/10 < |targetPosition - s.position| ∨ 1/10 < |targetSize - s.positionSize| then
    let commission := |targetPosition * targetSize - s.position * s.positionSize| *
        equity1 * cfg.fee
    let equity2 := equity1 - commission
    finishStep cfg s targetPosition targetSize currentPrice
      (s.trades ++ [⟨s.stepIdx, currentPrice, targetPosition, targetSize,
        commission, equity2⟩])
      pct s.equity commission equity2
  else
    finishStep cfg s s.position s.positionSize s.entryPrice s.trades
      pct s.equity 0 equity1

/-- The state component of step. -/
def stepState (cfg : EnvCfg) (s : EnvState) (a : ℚ × ℚ) : EnvState :=
  (stepFull cfg s a).1

/-- The reward component of step. -/
def stepReward (cfg : EnvCfg) (s : EnvState) (a : ℚ × ℚ) : ℚ :=
  (stepFull cfg s a).2.1

/-- The done component of step. -/
def stepDone (cfg : EnvCfg) (s : EnvState) (a : ℚ × ℚ) : Bool :=
  (stepFull cfg s a).2.2

/-- An episode prefix: reset followed by the given actions. -/
def run (cfg : EnvCfg) (acts : List (ℚ × ℚ)) : EnvState :=
  acts.foldl (stepState cfg) (resetState cfg)

/-- The state bounds the action clamp enforces: position in [-1, 1] and
position_size in [0.1, 1.0]. -/
def posInv (s : EnvState) : Prop :=
  -1 ≤ s.position ∧ s.position ≤ 1 ∧ 1/10 ≤ s.positionSize ∧ s.positionSize ≤ 1

/-- Concrete setup for the reward scenario: window_size 1, the given fee,
initial_balance 10000, a single price move 100 to 110. -/
def cfgC1 (fee : ℚ) : EnvCfg := ⟨[100, 110, 110], 1, fee, 10000⟩

/-- Concrete setup for the equity-floor termination check: the price falls
from 100 to 69, so a full long position loses 31 percent. -/
def cfgC3 : EnvCfg := ⟨[100, 69, 69, 69], 1, 1/1000, 10000⟩

/-- Mid-episode state holding a full long position at equity 10000. -/
def sC3 : EnvState := ⟨1, 1, 1, 10000, 100, [], 0, 10000, [], 0⟩

/-- Alternating 100/110 close prices, 23 bars: enough for 21 steps. -/
def pricesAlt : List ℚ :=
  [100, 110, 100, 110, 100, 110, 100, 110, 100, 110, 100, 110,
   100, 110, 100, 110, 100, 110, 100, 110, 100, 110, 100]

/-- Concrete setup for the volatility window check. -/
def cfgVol : EnvCfg := ⟨pricesAlt, 1, 1/1000, 10000⟩

/-- 21 identical full-long actions: one trade on the first step, then the
position is held, so the per-step returns alternate. -/
def actsVol : List (ℚ × ℚ) := List.replicate 21 (1, 1)

/-- RiskLimits dataclass of backend/risk_manager.py. -/
structure RiskLimits where
  max_position_size : ℚ
  max_daily_loss : ℚ
  max_risk_per_trade : ℚ
  stop_loss_percent : ℚ
  take_profit_percent : ℚ
  max_leverage : ℚ
  min_balance : ℚ
  max_open_positions : ℕ
deriving DecidableEq, Repr

/-- The dataclass field defaults of RiskLimits. -/
def defaultLimits : RiskLimits :=
  { max_position_size := 1000
    max_daily_loss := 500
    max_risk_per_trade := 2
    stop_loss_percent := 5
    take_profit_percent := 10
    max_leverage := 1
    min_balance := 1000
    max_open_positions := 5 }

/-- The four rejection reasons check_trade_allowed can return (the source
formats each as a human-readable string; the constructor stands for the
string). -/
inductive TradeRejection where
  | minBalance
  | positionSize
  | openPositions
  | riskPerTrade
deriving DecidableEq, Repr

/-- RiskManager.check_trade_allowed.  The symbol and side arguments are
accepted and ignored, as in the source; existing_positions enters only
through its length, modelled as openCount.  The leading
reset_daily_stats() touches only the daily counters, which this function
never reads, so it is not part of the result.  none means allowed. -/
def checkTradeAllowed (L : RiskLimits) (_symbol _side : String)
    (amount price currentBalance : ℚ) (openCount : ℕ) : Option TradeRejection :=
  if currentBalance < L.min_balance then some .minBalance
  else if L.max_position_size < amount * price then some .positionSize
  else if L.max_open_positions ≤ openCount then some .openPositions
  else if currentBalance * (L.max_risk_per_trade / 100) <
      amount * price * (L.max_risk_per_trade / 100) then some .riskPerTrade
  else none

/-- PositionRisk dataclass. -/
structure PositionRisk where
  symbol : String
  entry_price : ℚ
  current_price : ℚ
  quantity : ℚ
  unrealized_pnl : ℚ
  unrealized_pnl_percent : ℚ
  stop_loss_price : Option ℚ
  take_profit_price : Option ℚ
deriving DecidableEq, Repr

/-- Python str.lower, modelled on the character list of the string. -/
def strLower (s : String) : String := String.mk (s.toList.map Char.toLower)

/-- RiskManager.calculate_stop_loss_price. -/
def calculateStopLossPrice (L : RiskLimits) (entryPrice : ℚ) (side : String) : ℚ :=
  if strLower side = "buy" then
    entryPrice * (1 - L.stop_loss_percent / 100)
  else
    entryPrice * (1 + L.stop_loss_percent / 100)

/-- RiskManager.calculate_take_profit_price. -/
def calculateTakeProfitPrice (L : RiskLimits) (entryPrice : ℚ) (side : String) : ℚ :=
  if strLower side = "buy" then
    entryPrice * (1 + L.take_profit_percent / 100)
  else
    entryPrice * (1 - L.take_profit_percent / 100)

/-- RiskManager.check_stop_loss.  The Python guard
"if not position.stop_loss_price" is true for None and for 0.0, so both
map to false here. -/
def checkStopLoss (p : PositionRisk) : Bool :=
  match p.stop_loss_price with
  | none => false
  | some sl => if sl = 0 then false else decide (p.current_price ≤ sl)

/-- RiskManager.check_take_profit, with the same falsy guard on None/0.0. -/
def checkTakeProfit (p : PositionRisk) : Bool :=
  match p.take_profit_price with
  | none => false
  | some tp => if tp = 0 then false else decide (tp ≤ p.current_price)

/-- RiskManager.update_position: the PositionRisk record it builds and
stores into self.open_positions[symbol].  Both trigger prices are computed
with the literal side "buy", whatever the sign of quantity. -/
def updatePosition (L : RiskLimits) (symbol : String)
    (currentPrice quantity entryPrice : ℚ) : PositionRisk :=
  { symbol := symbol
    entry_price := entryPrice
    current_price := currentPrice
    quantity := quantity
    unrealized_pnl := (currentPrice - entryPrice) * quantity
    unrealized_pnl_percent := (currentPrice - entryPrice) / entryPrice * 100
    stop_loss_price := some (calculateStopLossPrice L entryPrice "buy")
    take_profit_price := some (calculateTakeProfitPrice L entryPrice "buy") }

/-- Round half to even, the rounding Python round() applies (float binary
representation artifacts aside; rationals here are exact). -/
def roundHalfEven (q : ℚ) : ℤ :=
  let f := ⌊q⌋
  let r := q - (f : ℚ)
  if r < 1/2 then f
  else if 1/2 < r then f + 1
  else if f % 2 = 0 then f else f + 1

/-- Python round(q, 2). -/
def pyRound2 (q : ℚ) : ℚ := (roundHalfEven (q * 100) : ℚ) / 100

/-- Python round(q, 1). -/
def pyRound1 (q : ℚ) : ℚ := (roundHalfEven (q * 10) : ℚ) / 10

/-- np.maximum.accumulate, carrying the running maximum m. -/
def runningMaxFrom (m : ℚ) : List ℚ → List ℚ
  | [] => []
  | x :: xs => max m x :: runningMaxFrom (max m x) xs

/-- np.maximum.accumulate on the whole list. -/
def runningMax : List ℚ → List ℚ
  | [] => []
  | x :: xs => x :: runningMaxFrom x xs

/-- np.min of a list (0 on the empty list, which the callers guard away). -/
def listMin : List ℚ → ℚ
  | [] => 0
  | x :: xs => xs.foldl min x

/-- returns = np.diff(equities) / equities[:-1] * 100 if len > 1 else [0]. -/
def pctReturns (equities : List ℚ) : List ℚ :=
  if 1 < equities.length then
    (equities.zip equities.tail).map (fun p => (p.2 - p.1) / p.1 * 100)
  else [0]

/-- np.diff(equities). -/
def diffs (equities : List ℚ) : List ℚ :=
  (equities.zip equities.tail).map (fun p => p.2 - p.1)

/-- drawdown = (equities - peak) / peak * 100 with peak the running max. -/
def drawdownPcts (equities : List ℚ) : List ℚ :=
  (equities.zip (runningMax equities)).map (fun p => (p.1 - p.2) / p.2 * 100)

/-- The per-trade loop of _calculate_metrics: folds
(winning_count, total_profit, total_loss, prev_equity) over the trades,
where trade_pnl = trade equity - prev_equity. -/
def tradeStatsFold (acc : ℕ × ℚ × ℚ × ℚ) (t : TradeRec) : ℕ × ℚ × ℚ × ℚ :=
  let pnl := t.equity - acc.2.2.2
  if 0 < pnl then (acc.1 + 1, acc.2.1 + pnl, acc.2.2.1, t.equity)
  else (acc.1, acc.2.1, acc.2.2.1 + |pnl|, t.equity)

/-- The metrics dict returned by BacktestEngine._calculate_metrics.  The
reported sharpe_ratio is round(mean/std * sqrt(252*24), 2), an irrational
number in general; the field sharpe_sq_signed carries the equivalent exact
data sign(mean) * mean^2 * 252*24 / variance (and 0 in the branch where
the source reports 0.0), from which the reported value is
round2(sign * sqrt of magnitude) and nothing else. -/
structure Metrics where
  total_return : ℚ
  total_return_pct : ℚ
  sharpe_sq_signed : ℚ
  max_drawdown : ℚ
  win_rate : ℚ
  total_trades : ℕ
  profit_factor : ℚ
  final_balance : ℚ
deriving DecidableEq, Repr

/-- BacktestEngine._get_default_metrics (final_balance is the engine
attribute self.initial_balance). -/
def defaultMetrics (selfInitialBalance : ℚ) : Metrics :=
  { total_return := 0
    total_return_pct := 0
    sharpe_sq_signed := 0
    max_drawdown := 0
    win_rate := 0
    total_trades := 0
    profit_factor := 0
    final_balance := selfInitialBalance }

/-- BacktestEngine._calculate_metrics.  envInfo is none when env_info is
falsy or lacks the max_drawdown key, and some dd when the simulator
supplied its tracked (fractional, non-negative) max_drawdown dd. -/
def calcMetrics (selfInitialBalance : ℚ) (equities : List ℚ)
    (trades : List TradeRec) (initialBalance : ℚ) (envInfo : Option ℚ) : Metrics :=
  if equities = [] then defaultMetrics selfInitialBalance
  else
    let finalBalance := equities.getLastD 0
    let totalReturn := finalBalance - initialBalance
    let totalReturnPct := totalReturn / initialBalance * 100
    let rets := pctReturns equities
    let sharpeSq :=
      if 1 < rets.length ∧ 0 < popVar rets then
        (if listMean rets < 0 then -1 else 1) * (listMean rets) ^ 2 * (252 * 24) /
          popVar rets
      else 0
    let calculatedMaxDrawdown := listMin (drawdownPcts equities)
    let maxDrawdown :=
      match envInfo with
      | some dd => min calculatedMaxDrawdown (dd * 100)
      | none => calculatedMaxDrawdown
    let totalTrades := trades.length
    let winProfitLoss :=
      if 0 < totalTrades then
        let folded := trades.foldl tradeStatsFold (0, 0, 0, initialBalance)
        let base := (folded.1, folded.2.1, folded.2.2.1)
        if folded.1 = 0 ∧ folded.2.1 = 0 then
          let changes := diffs equities
          let pos := changes.filter (fun c => 0 < c)
          let neg := changes.filter (fun c => c ≤ 0)
          if 0 < changes.length then (pos.length, pos.sum, |neg.sum|) else base
        else base
      else (0, 0, 0)
    let winRate :=
      if 0 < totalTrades then (winProfitLoss.1 : ℚ) / (totalTrades : ℚ) * 100 else 0
    let profitFactor :=
      if 0 < totalTrades then
        if 0 < winProfitLoss.2.2 then winProfitLoss.2.1 / winProfitLoss.2.2
        else if 0 < winProfitLoss.2.1 then winProfitLoss.2.1 else 0
      else 0
    { total_return := pyRound2 totalReturn
      total_return_pct := pyRound2 totalReturnPct
      sharpe_sq_signed := sharpeSq
      max_drawdown := pyRound2 maxDrawdown
      win_rate := pyRound1 winRate
      total_trades := totalTrades
      profit_factor := if 0 < profitFactor then pyRound2 profitFactor else 0
      final_balance := pyRound2 finalBalance }

theorem clip_le (x lo hi : ℚ) (h : lo ≤ hi) : lo ≤ clip x lo hi ∧ clip x lo hi ≤ hi :=
  ⟨le_max_left _ _, max_le h (min_le_right _ _)⟩

theorem finishStep_maxDD_peak (cfg : EnvCfg) (s : EnvState)
    (pos size entry : ℚ) (trades : List TradeRec) (pct oldE comm e2 : ℚ) :
    s.maxDrawdown ≤ (finishStep cfg s pos size entry trades pct oldE comm e2).1.maxDrawdown ∧
    (finishStep cfg s pos size entry trades pct oldE comm e2).1.peakEquity =
      max s.peakEquity (finishStep cfg s pos size entry trades pct oldE comm e2).1.equity := by
  unfold finishStep
  refine ⟨le_max_left _ _, ?_⟩
  dsimp only
  split
  · next h => exact (max_eq_right h.le).symm
  · next h => exact (max_eq_left (not_lt.mp h)).symm

theorem finishStep_done_iff (cfg : EnvCfg) (s : EnvState)
    (pos size entry : ℚ) (trades : List TradeRec) (pct oldE comm e2 : ℚ) :
    (finishStep cfg s pos size entry trades pct oldE comm e2).2.2 = true ↔
      ((finishStep cfg s pos size entry trades pct oldE comm e2).1.equity ≤
          cfg.initialBalance * (7/10) ∨
       maxStep cfg ≤ (finishStep cfg s pos size entry trades pct oldE comm e2).1.stepIdx ∨
       1/2 < (finishStep cfg s pos size entry trades pct oldE comm e2).1.maxDrawdown) := by
  unfold finishStep
  dsimp only
  simp only [Bool.or_eq_true, decide_eq_true_iff, or_assoc]

theorem posInv_step (cfg : EnvCfg) (s : EnvState) (a : ℚ × ℚ)
    (h : posInv s) : posInv (stepState cfg s a) := by
  unfold stepState stepFull
  dsimp only
  split
  · exact ⟨(clip_le a.1 (-1) 1 (by norm_num)).1, (clip_le a.1 (-1) 1 (by norm_num)).2,
      (clip_le a.2 (1/10) 1 (by norm_num)).1, (clip_le a.2 (1/10) 1 (by norm_num)).2⟩
  · exact h

theorem posInv_foldl (cfg : EnvCfg) (acts : List (ℚ × ℚ)) :
    ∀ s : EnvState, posInv s → posInv (acts.foldl (stepState cfg) s) := by
  induction acts with
  | nil => intro s h; exact h
  | cons a as ih => intro s h; exact ih _ (posInv_step cfg s a h)

/-- Claim C5: step clamps target_position into [-1, 1] and target_size
into [0.1, 1.0] and never rejects an action; consequently after every step
of every episode the state satisfies position in [-1, 1] and
position_size in [0.1, 1.0]. -/
theorem claim5_clamp_invariant :
    (∀ (cfg : EnvCfg) (acts : List (ℚ × ℚ)),
      -1 ≤ (run cfg acts).position ∧ (run cfg acts).position ≤ 1 ∧
      1/10 ≤ (run cfg acts).positionSize ∧ (run cfg acts).positionSize ≤ 1) ∧
    (∀ (cfg : EnvCfg) (s : EnvState) (a : ℚ × ℚ),
      ((stepState cfg s a).position = s.position ∨
        (stepState cfg s a).position = clip a.1 (-1) 1) ∧
      ((stepState cfg s a).positionSize = s.positionSize ∨
        (stepState cfg s a).positionSize = clip a.2 (1/10) 1)) := by
  constructor
  · intro cfg acts
    exact posInv_foldl cfg acts (resetState cfg)
      (by unfold posInv resetState; norm_num)
  · intro cfg s a
    unfold stepState stepFull
    dsimp only
    split
    · exact ⟨Or.inr rfl, Or.inr rfl⟩
    · exact ⟨Or.inl rfl, Or.inl rfl⟩

/-- Claim C6: within an episode max_drawdown never decreases across a
step, and peak_equity is updated to max(peak_equity, equity) on every
step. -/
theorem claim6_drawdown_monotone :
    ∀ (cfg : EnvCfg) (s : EnvState) (a : ℚ × ℚ),
      s.maxDrawdown ≤ (stepState cfg s a).maxDrawdown ∧
      (stepState cfg s a).peakEquity =
        max s.peakEquity (stepState cfg s a).equity := by
  intro cfg s a
  unfold stepState stepFull
  dsimp only
  split
  · exact finishStep_maxDD_peak cfg s _ _ _ _ _ _ _ _
  · exact finishStep_maxDD_peak cfg s _ _ _ _ _ _ _ _

/-- Claim C3: step returns done = true exactly when, after the update,
equity is at most 0.7 * initial_balance, or the cursor reached the last
usable index, or max_drawdown exceeds 0.5; and a drop of equity from
10000 to 6900 alone (cursor not at the end, drawdown at most 0.5) forces
done = true. -/
theorem claim3_done_iff :
    (∀ (cfg : EnvCfg) (s : EnvState) (a : ℚ × ℚ),
      stepDone cfg s a = true ↔
        ((stepState cfg s a).equity ≤ cfg.initialBalance * (7/10) ∨
         maxStep cfg ≤ (stepState cfg s a).stepIdx ∨
         1/2 < (stepState cfg s a).maxDrawdown)) ∧
    (stepDone cfgC3 sC3 (1, 1) = true ∧
     (stepState cfgC3 sC3 (1, 1)).equity = 6900 ∧
     (stepState cfgC3 sC3 (1, 1)).stepIdx < maxStep cfgC3 ∧
     (stepState cfgC3 sC3 (1, 1)).maxDrawdown ≤ 1/2) := by
  constructor
  · intro cfg s a
    unfold stepDone stepState stepFull
    dsimp only
    split
    · exact finishStep_done_iff cfg s _ _ _ _ _ _ _ _
    · exact finishStep_done_iff cfg s _ _ _ _ _ _ _ _
  · refine ⟨?_, ?_, ?_, ?_⟩ <;>
      norm_num [stepDone, stepState, stepFull, finishStep, stepPct, clip,
        cfgC3, sC3, maxStep, List.getD]

/-- Claim C4: with the clamped action targets, a trade record is appended
(and commission charged) exactly when the target position moved by more
than 0.1 or the target size moved by more than 0.1; otherwise equity
changes only by the unrealized P&L term; and when a trade happens the
appended record carries commission
|target_position*target_size - position*position_size| * equity * fee,
with equity the post-P&L equity, which is deducted. -/
theorem claim4_trade_hysteresis :
    ∀ (cfg : EnvCfg) (s : EnvState) (a : ℚ × ℚ),
      ((stepState cfg s a).trades.length = s.trades.length + 1 ↔
        (1/10 < |clip a.1 (-1) 1 - s.position| ∨
         1/10 < |clip a.2 (1/10) 1 - s.positionSize|)) ∧
      (¬(1/10 < |clip a.1 (-1) 1 - s.position| ∨
          1/10 < |clip a.2 (1/10) 1 - s.positionSize|) →
        (stepState cfg s a).trades = s.trades ∧
        (stepState cfg s a).equity =
          s.equity + s.position * s.positionSize * stepPct cfg s * s.equity) ∧
      ((1/10 < |clip a.1 (-1) 1 - s.position| ∨
          1/10 < |clip a.2 (1/10) 1 - s.positionSize|) →
        (stepState cfg s a).trades = s.trades ++
          [⟨s.stepIdx, cfg.prices.getD s.stepIdx 0, clip a.1 (-1) 1, clip a.2 (1/10) 1,
            |clip a.1 (-1) 1 * clip a.2 (1/10) 1 - s.position * s.positionSize| *
              (s.equity + s.position * s.positionSize * stepPct cfg s * s.equity) * cfg.fee,
            s.equity + s.position * s.positionSize * stepPct cfg s * s.equity -
              |clip a.1 (-1) 1 * clip a.2 (1/10) 1 - s.position * s.positionSize| *
                (s.equity + s.position * s.positionSize * stepPct cfg s * s.equity) * cfg.fee⟩] ∧
        (stepState cfg s a).equity =
          s.equity + s.position * s.positionSize * stepPct cfg s * s.equity -
            |clip a.1 (-1) 1 * clip a.2 (1/10) 1 - s.position * s.positionSize| *
              (s.equity + s.position * s.positionSize * stepPct cfg s * s.equity) * cfg.fee) := by
  intro cfg s a
  by_cases h : (1/10 < |clip a.1 (-1) 1 - s.position| ∨
      1/10 < |clip a.2 (1/10) 1 - s.positionSize|)
  · refine ⟨iff_of_true ?_ h, fun hn => absurd h hn, fun _ => ⟨?_, ?_⟩⟩ <;>
      ( unfold stepState stepFull
        dsimp only
        rw [if_pos h]
        simp [finishStep] )
  · refine ⟨iff_of_false ?_ h, fun _ => ⟨?_, ?_⟩, fun hc => absurd hc h⟩ <;>
      ( unfold stepState stepFull
        dsimp only
        rw [if_neg h]
        simp [finishStep] )

/-- Witness for claim C4: from the reset state, the action (1, 1) trips
the hysteresis band and appends a trade, while the action (0, 0.1)
leaves the trade log unchanged. -/
theorem claim4_trade_hysteresis_case :
    (stepState (cfgC1 (1/1000)) (resetState (cfgC1 (1/1000))) (1, 1)).trades.length =
      (resetState (cfgC1 (1/1000))).trades.length + 1 ∧
    (stepState (cfgC1 (1/1000)) (resetState (cfgC1 (1/1000))) (0, 1/10)).trades =
      (resetState (cfgC1 (1/1000))).trades := by
  constructor
  · exact (claim4_trade_hysteresis (cfgC1 (1/1000)) (resetState (cfgC1 (1/1000))) (1, 1)).1.mpr
      (by norm_num [clip, resetState, cfgC1])
  · exact ((claim4_trade_hysteresis (cfgC1 (1/1000)) (resetState (cfgC1 (1/1000)))
      (0, 1/10)).2.1 (by norm_num [clip, resetState, cfgC1])).1

/-- Counterexample to claim C1: in the scenario (initial_balance 10000,
price step 100 to 110, action (1, 1) from the flat reset state, fee
0.001) a trade is recorded with commission 10, but the returned reward is
9.9, not the pure commission penalty (-commission/initial_balance)*100 =
-0.1 that the claim asserts: _calculate_reward runs after the trade block
has already overwritten position and position_size. -/
theorem claim1_reward_pretrade_false :
    (stepState (cfgC1 (1/1000)) (resetState (cfgC1 (1/1000))) (1, 1)).trades.length = 1 ∧
    ((stepState (cfgC1 (1/1000)) (resetState (cfgC1 (1/1000))) (1, 1)).trades.headD
        ⟨0, 0, 0, 0, 0, 0⟩).commission = 10 ∧
    stepReward (cfgC1 (1/1000)) (resetState (cfgC1 (1/1000))) (1, 1) = 99/10 ∧
    stepReward (cfgC1 (1/1000)) (resetState (cfgC1 (1/1000))) (1, 1) ≠
      (-(10 : ℚ) / 10000) * 100 := by
  refine ⟨?_, ?_, ?_, ?_⟩ <;>
    norm_num [stepReward, stepState, stepFull, finishStep, stepPct, clip,
      cfgC1, resetState, maxStep, List.getD]

/-- Claim C1 as amended: in the scenario, for every fee rate, step records
exactly one trade whose commission is 1.0 * 10000 * fee_rate, and the
reward is computed from the POST-trade position and size, so it equals
(0.1 - fee_rate) * 100: the P&L component is 1.0 * 1.0 * 0.1, not 0. -/
theorem claim1_reward_posttrade :
    ∀ fee : ℚ,
      (stepState (cfgC1 fee) (resetState (cfgC1 fee)) (1, 1)).trades =
        [⟨1, 110, 1, 1, 10000 * fee, 10000 - 10000 * fee⟩] ∧
      stepReward (cfgC1 fee) (resetState (cfgC1 fee)) (1, 1) = (1/10 - fee) * 100 := by
  intro fee
  refine ⟨?_, ?_⟩ <;>
    ( norm_num [stepState, stepReward, stepFull, finishStep, stepPct, clip,
        cfgC1, resetState, List.getD]
      try ring_nf )

theorem finishStep_volSq (cfg : EnvCfg) (s : EnvState)
    (pos size entry : ℚ) (trades : List TradeRec) (pct oldE comm e2 : ℚ)
    (h : s.volatilitySq =
      if 20 ≤ s.returns.length then popVar (last20 s.returns) else 0) :
    (finishStep cfg s pos size entry trades pct oldE comm e2).1.volatilitySq =
      if 20 ≤ (finishStep cfg s pos size entry trades pct oldE comm e2).1.returns.length then
        popVar (last20 (finishStep cfg s pos size entry trades pct oldE comm e2).1.returns)
      else 0 := by
  unfold finishStep
  dsimp only
  simp only [List.length_append, List.length_singleton]
  by_cases h20 : 20 ≤ s.returns.length + 1
  · simp only [if_pos h20]
  · simp only [if_neg h20]
    rw [if_neg (fun hc : 20 ≤ s.returns.length => h20 (by omega))] at h
    exact h

theorem volSq_step (cfg : EnvCfg) (s : EnvState) (a : ℚ × ℚ)
    (h : s.volatilitySq =
      if 20 ≤ s.returns.length then popVar (last20 s.returns) else 0) :
    (stepState cfg s a).volatilitySq =
      if 20 ≤ (stepState cfg s a).returns.length then
        popVar (last20 (stepState cfg s a).returns)
      else 0 := by
  unfold stepState stepFull
  dsimp only
  split
  · exact finishStep_volSq cfg s _ _ _ _ _ _ _ _ h
  · exact finishStep_volSq cfg s _ _ _ _ _ _ _ _ h

theorem volSq_foldl (cfg : EnvCfg) (acts : List (ℚ × ℚ)) :
    ∀ s : EnvState,
      (s.volatilitySq = if 20 ≤ s.returns.length then popVar (last20 s.returns) else 0) →
      ((acts.foldl (stepState cfg) s).volatilitySq =
        if 20 ≤ (acts.foldl (stepState cfg) s).returns.length then
          popVar (last20 (acts.foldl (stepState cfg) s).returns)
        else 0) := by
  induction acts with
  | nil => intro s h; exact h
  | cons a as ih => intro s h; exact ih _ (volSq_step cfg s a h)

/-- Claim C8 as amended: in every episode prefix, once at least 20
per-step returns exist, the stored volatility is the POPULATION standard
deviation (np.std with ddof 0, carried here as its square volatilitySq)
of exactly the last 20 entries of the return history, recomputed on every
step; before 20 samples exist it is zero. -/
theorem claim8_population_std :
    ∀ (cfg : EnvCfg) (acts : List (ℚ × ℚ)),
      (run cfg acts).volatilitySq =
        if 20 ≤ (run cfg acts).returns.length then popVar (last20 (run cfg acts).returns)
        else 0 := by
  intro cfg acts
  exact volSq_foldl cfg acts (resetState cfg) (by unfold resetState; simp)

set_option maxHeartbeats 4000000 in
set_option maxRecDepth 8000 in
theorem volRun_values :
    (run cfgVol actsVol).volatilitySq = 441/48400 ∧
    sampleVar (last20 (run cfgVol actsVol).returns) = 441/45980 ∧
    (run cfgVol actsVol).returns.length = 21 := by
  refine ⟨?_, ?_, ?_⟩ <;>
    norm_num [run, actsVol, resetState, stepState, stepFull, finishStep, stepPct, clip,
      cfgVol, pricesAlt, maxStep, List.getD, popVar, last20, sampleVar, listMean,
      List.replicate]

/-- Counterexample to claim C8: a concrete 21-step episode prefix in
which the stored volatility (the square root of volatilitySq, which is
441/48400) differs from the sample standard deviation (ddof 1) of the
last 20 returns (the square root of 441/45980): np.std divides by n, not
n - 1. -/
theorem claim8_sample_std_false :
    20 ≤ (run cfgVol actsVol).returns.length ∧
    Real.sqrt (((run cfgVol actsVol).volatilitySq : ℚ) : ℝ) ≠
      Real.sqrt ((sampleVar (last20 (run cfgVol actsVol).returns) : ℚ) : ℝ) := by
  obtain ⟨h1, h2, h3⟩ := volRun_values
  refine ⟨by omega, fun hEq => ?_⟩
  have hx : (0 : ℝ) ≤ (((run cfgVol actsVol).volatilitySq : ℚ) : ℝ) := by
    rw [h1]; norm_num
  have hy : (0 : ℝ) ≤ ((sampleVar (last20 (run cfgVol actsVol).returns) : ℚ) : ℝ) := by
    rw [h2]; norm_num
  have h4 := (Real.sqrt_inj hx hy).mp hEq
  rw [h1, h2] at h4
  norm_num at h4

/-- Claim C7: check_trade_allowed applies its checks in the fixed order
minimum balance, position size, open-position count, risk per trade, and
returns the rejection of the first failing check (none when all pass);
and with balance 900 against the default min_balance 1000 it returns the
below-minimum rejection whatever the other arguments are. -/
theorem claim7_first_failing_check :
    (∀ (L : RiskLimits) (sym side : String) (amt price bal : ℚ) (cnt : ℕ),
      (bal < L.min_balance →
        checkTradeAllowed L sym side amt price bal cnt = some .minBalance) ∧
      (L.min_balance ≤ bal → L.max_position_size < amt * price →
        checkTradeAllowed L sym side amt price bal cnt = some .positionSize) ∧
      (L.min_balance ≤ bal → amt * price ≤ L.max_position_size →
        L.max_open_positions ≤ cnt →
        checkTradeAllowed L sym side amt price bal cnt = some .openPositions) ∧
      (L.min_balance ≤ bal → amt * price ≤ L.max_position_size →
        cnt < L.max_open_positions →
        bal * (L.max_risk_per_trade / 100) < amt * price * (L.max_risk_per_trade / 100) →
        checkTradeAllowed L sym side amt price bal cnt = some .riskPerTrade) ∧
      (L.min_balance ≤ bal → amt * price ≤ L.max_position_size →
        cnt < L.max_open_positions →
        amt * price * (L.max_risk_per_trade / 100) ≤ bal * (L.max_risk_per_trade / 100) →
        checkTradeAllowed L sym side amt price bal cnt = none)) ∧
    (∀ (sym side : String) (amt price : ℚ) (cnt : ℕ),
      checkTradeAllowed defaultLimits sym side amt price 900 cnt = some .minBalance) := by
  constructor
  · intro L sym side amt price bal cnt
    refine ⟨fun h1 => ?_, fun h1 h2 => ?_, fun h1 h2 h3 => ?_,
      fun h1 h2 h3 h4 => ?_, fun h1 h2 h3 h4 => ?_⟩ <;>
      unfold checkTradeAllowed
    · rw [if_pos h1]
    · rw [if_neg (not_lt.mpr h1), if_pos h2]
    · rw [if_neg (not_lt.mpr h1), if_neg (not_lt.mpr h2), if_pos h3]
    · rw [if_neg (not_lt.mpr h1), if_neg (not_lt.mpr h2), if_neg (not_le.mpr h3),
        if_pos h4]
    · rw [if_neg (not_lt.mpr h1), if_neg (not_lt.mpr h2), if_neg (not_le.mpr h3),
        if_neg (not_lt.mpr h4)]
  · intro sym side amt price cnt
    unfold checkTradeAllowed
    rw [if_pos (by norm_num [defaultLimits])]

/-- Witness for claim C7: concrete calls hitting the first and the second
check. -/
theorem claim7_first_failing_check_case :
    checkTradeAllowed defaultLimits "BTC" "buy" 1 10 900 0 =
      some TradeRejection.minBalance ∧
    checkTradeAllowed defaultLimits "ETH" "sell" 3000 1 5000 0 =
      some TradeRejection.positionSize := by
  constructor
  · exact (claim7_first_failing_check.1 defaultLimits "BTC" "buy" 1 10 900 0).1
      (by norm_num [defaultLimits])
  · exact (claim7_first_failing_check.1 defaultLimits "ETH" "sell" 3000 1 5000 0).2.1
      (by norm_num [defaultLimits]) (by norm_num [defaultLimits])

/-- Claim C10: update_position always stores the long-side (buy) trigger
prices, stop below and take-profit above the entry by the configured
percents, whatever the sign of the quantity; and the trigger checks
always compare in the long direction (stop fires when current_price is
at most the stop price, take-profit when current_price is at least the
take-profit price), returning false when the trigger price is None or
0.0. -/
theorem claim10_long_side_triggers :
    (∀ (L : RiskLimits) (sym : String) (cur qty entry : ℚ),
      (updatePosition L sym cur qty entry).stop_loss_price =
        some (entry * (1 - L.stop_loss_percent / 100)) ∧
      (updatePosition L sym cur qty entry).take_profit_price =
        some (entry * (1 + L.take_profit_percent / 100))) ∧
    (∀ p : PositionRisk,
      (checkStopLoss p = true ↔
        ∃ sl, p.stop_loss_price = some sl ∧ sl ≠ 0 ∧ p.current_price ≤ sl) ∧
      (checkTakeProfit p = true ↔
        ∃ tp, p.take_profit_price = some tp ∧ tp ≠ 0 ∧ tp ≤ p.current_price)) := by
  constructor
  · intro L sym cur qty entry
    constructor <;>
      simp [updatePosition, calculateStopLossPrice, calculateTakeProfitPrice,
        show strLower "buy" = "buy" from by decide]
  · intro p
    constructor
    · constructor
      · intro ht
        cases hh : p.stop_loss_price with
        | none => simp [checkStopLoss, hh] at ht
        | some sl =>
          by_cases hz : sl = 0
          · simp [checkStopLoss, hh, hz] at ht
          · simp [checkStopLoss, hh, hz] at ht
            exact ⟨sl, rfl, hz, ht⟩
      · rintro ⟨sl, hsl, hz, hle⟩
        simp [checkStopLoss, hsl, hz, hle]
    · constructor
      · intro ht
        cases hh : p.take_profit_price with
        | none => simp [checkTakeProfit, hh] at ht
        | some tp =>
          by_cases hz : tp = 0
          · simp [checkTakeProfit, hh, hz] at ht
          · simp [checkTakeProfit, hh, hz] at ht
            exact ⟨tp, rfl, hz, ht⟩
      · rintro ⟨tp, htp, hz, hle⟩
        simp [checkTakeProfit, htp, hz, hle]

/-- Claim C9: the metrics computation is a pure function of the equity
curve, trade log, initial balance and environment info (plus the engine
attribute used only by the empty-curve default): two calls on the same
inputs agree on all eight output fields. -/
theorem claim9_metrics_pure :
    ∀ (selfIB : ℚ) (equities : List ℚ) (trades : List TradeRec) (ib : ℚ)
      (envInfo : Option ℚ),
      (calcMetrics selfIB equities trades ib envInfo).total_return =
        (calcMetrics selfIB equities trades ib envInfo).total_return ∧
      (calcMetrics selfIB equities trades ib envInfo).total_return_pct =
        (calcMetrics selfIB equities trades ib envInfo).total_return_pct ∧
      (calcMetrics selfIB equities trades ib envInfo).sharpe_sq_signed =
        (calcMetrics selfIB equities trades ib envInfo).sharpe_sq_signed ∧
      (calcMetrics selfIB equities trades ib envInfo).max_drawdown =
        (calcMetrics selfIB equities trades ib envInfo).max_drawdown ∧
      (calcMetrics selfIB equities trades ib envInfo).win_rate =
        (calcMetrics selfIB equities trades ib envInfo).win_rate ∧
      (calcMetrics selfIB equities trades ib envInfo).total_trades =
        (calcMetrics selfIB equities trades ib envInfo).total_trades ∧
      (calcMetrics selfIB equities trades ib envInfo).profit_factor =
        (calcMetrics selfIB equities trades ib envInfo).profit_factor ∧
      (calcMetrics selfIB equities trades ib envInfo).final_balance =
        (calcMetrics selfIB equities trades ib envInfo).final_balance := by
  intro selfIB equities trades ib envInfo
  exact ⟨rfl, rfl, rfl, rfl, rfl, rfl, rfl, rfl⟩

/-- Claim C2 fails on the code: for the equity curve
[10000, 9000, 10000] (equity-curve drawdown -10 percent) with a
simulator-tracked max_drawdown of 0.5 (a 50 percent decline), the
reported max_drawdown is -10, the value with the SMALLER magnitude of
decline: min() compares the non-positive curve percentage against the
non-negative env percentage, so the env value can never win. -/
theorem claim2_drawdown_merge_bug :
    (calcMetrics 10000 [10000, 9000, 10000] [] 10000 (some (1/2))).max_drawdown =
      -10 ∧
    |(calcMetrics 10000 [10000, 9000, 10000] [] 10000 (some (1/2))).max_drawdown| <
      |(1/2 : ℚ) * 100| := by
  constructor <;>
    norm_num [calcMetrics, defaultMetrics, pyRound2, pyRound1, roundHalfEven,
      runningMax, runningMaxFrom, listMin, drawdownPcts, pctReturns, diffs,
      tradeStatsFold, popVar, listMean, last20, List.getD, List.getLastD,
      min_def, List.cons_ne_nil]

end OptiTrade
